import Mathlib

/-!
Shallow embedding of the GDPR/CCPA compliance checker:
`models/compliance_model.py` (classifiers over a parsed document),
`controllers/compliance_controller.py` (scan pipeline and summary),
and the persistence guard in `app.py`.  External collaborators
(HTTP fetch, `urljoin`, the OpenAI policy analyzer, recommendation
generation) are modelled as parameters of the pipeline.
-/

/-- Python's `str.startswith`-style check: `strLeads pat text` is true when
`pat` is an initial segment of `text` (character lists). -/
def strLeads : List Char → List Char → Bool
  | [], _ => true
  | _ :: _, [] => false
  | p :: ps, t :: ts => (p == t) && strLeads ps ts

/-- Occurrence of `pat` as a contiguous sublist of `text`; models Python's
`pat in text` on strings. -/
def subOcc : List Char → List Char → Bool
  | pat, [] => strLeads pat []
  | pat, t :: ts => strLeads pat (t :: ts) || subOcc pat ts

/-- Python `pat in hay` for strings. -/
def pyIn (pat hay : String) : Bool := subOcc pat.data hay.data

/-- Python `s.lower()` (ASCII case folding, as used on the keyword lists). -/
def lowerStr (s : String) : String := ⟨s.data.map Char.toLower⟩

/-- Python `s.startswith(pre)`. -/
def pyStarts (s pre : String) : Bool := strLeads pre.data s.data

/-- Drop leading whitespace characters. -/
def dropLeadingWs : List Char → List Char
  | [] => []
  | c :: cs => if c.isWhitespace then dropLeadingWs cs else c :: cs

/-- Python `s.strip()`: surrounding whitespace removed from both ends. -/
def pyStrip (s : String) : String :=
  ⟨dropLeadingWs ((dropLeadingWs s.data.reverse).reverse)⟩

/-- `ComplianceModel.__init__`: prepend `https://` unless the input already
carries an `http://` or `https://` scheme (compliance_model.py line 9). -/
def normalizeUrl (url : String) : String :=
  if pyStarts url "http://" || pyStarts url "https://" then url
  else "https://" ++ url

/-- A block-level element as seen by the cookie-banner scan: tag name and the
stringified `class` attribute (`none` when the attribute is absent). -/
structure Element where
  tag : String
  cls : Option String
deriving Repr, DecidableEq

/-- A script element: `src` attribute (`""` when absent, mirroring
`script.get('src', '')`) and inline text body (`""` when none, mirroring
`script.string or ''`). -/
structure Script where
  src : String
  content : String
deriving Repr, DecidableEq

/-- An anchor element carrying an `href` (the model only enumerates
`find_all('a', href=True)`), with its visible text. -/
structure Anchor where
  href : String
  text : String
deriving Repr, DecidableEq

/-- The parsed document the four classifiers read: plain-text rendering,
block-level elements, script elements, href-carrying anchors and the raw
text nodes (for the `'@' in text` e-mail heuristic). -/
structure Document where
  text : String
  elements : List Element
  scripts : List Script
  anchors : List Anchor
  textNodes : List String
deriving Repr, DecidableEq

structure CookieBanner where
  detected : Bool
  keywords_found : List String
  banner_elements : Nat
deriving Repr, DecidableEq

structure TrackingScripts where
  detected_trackers : List (String × List String)
  total_trackers : Nat
  tracker_names : List String
  total_scripts : Nat
deriving Repr, DecidableEq

structure PPLink where
  url : String
  text : String
deriving Repr, DecidableEq

structure PrivacyPolicy where
  found : Bool
  links : List PPLink
  count : Nat
deriving Repr, DecidableEq

structure ContactInfo where
  detected : Bool
  emails_found : Bool
deriving Repr, DecidableEq

/-- The slice of an AI policy-analysis dictionary the pipeline inspects:
the `error` key (`none` when absent) and the two compliance booleans
(`false` models both an explicit `False` and an absent key, which Python's
`.get` treats identically in the summary's truthiness tests). -/
structure PolicyAnalysis where
  error : Option String
  gdpr_compliant : Bool
  ccpa_compliant : Bool
deriving Repr, DecidableEq

/-- The recommendation dictionary returned by the external collaborator;
only its presence matters to the claims. -/
structure Recommendations where
  error : Option String
deriving Repr, DecidableEq

structure Summary where
  checks_passed : Nat
  total_checks : Nat
  compliance_percentage : ℚ
  status : String
  color : String
deriving Repr, DecidableEq

/-- The `self.results` dictionary: each key is `none` when absent. -/
structure Results where
  error : Option String := none
  cookie_banner : Option CookieBanner := none
  tracking_scripts : Option TrackingScripts := none
  privacy_policy : Option PrivacyPolicy := none
  contact_info : Option ContactInfo := none
  url : Option String := none
  scan_completed : Option Bool := none
  policy_analysis : Option PolicyAnalysis := none
  recommendations : Option Recommendations := none
  compliance_summary : Option Summary := none
deriving Repr, DecidableEq

/-- Python truthiness of `d.get(key)` for an optional string value:
truthy iff present and non-empty. -/
def pyTruthyStr : Option String → Bool
  | none => false
  | some s => !(s == "")

/-- Python truthiness of `d.get(key)` for an optional boolean value. -/
def pyTruthy (o : Option Bool) : Bool := o.getD false

/-- Keyword list of `detect_cookie_banner`. -/
def cookieKeywords : List String :=
  ["cookie", "cookies", "consent", "accept cookies",
   "cookie policy", "we use cookies", "cookie consent",
   "cookie notice", "cookie preferences", "manage cookies"]

/-- Class-attribute term list of `detect_cookie_banner`. -/
def bannerTerms : List String := ["cookie", "consent", "gdpr", "privacy-banner"]

/-- `ComplianceModel.detect_cookie_banner`. -/
def detect_cookie_banner (doc : Document) : CookieBanner :=
  let text := lowerStr doc.text
  let found := cookieKeywords.filter (fun k => pyIn k text)
  let bannerEls := doc.elements.filter (fun e =>
    (e.tag == "div" || e.tag == "section" || e.tag == "aside") &&
    (match e.cls with
     | none => false
     | some c => (!(c == "")) && bannerTerms.any (fun t => pyIn t (lowerStr c))))
  { detected := !found.isEmpty || !bannerEls.isEmpty
    keywords_found := found.take 5
    banner_elements := bannerEls.length }

/-- The fixed tracker taxonomy of `detect_tracking_scripts` (insertion order
of the Python dict). -/
def trackers : List (String × List String) :=
  [("Google Analytics", ["google-analytics.com", "googletagmanager.com", "ga.js", "analytics.js", "gtag/js"]),
   ("Facebook Pixel", ["connect.facebook.net", "facebook.com/tr", "fbevents.js"]),
   ("Google Ads", ["googleadservices.com", "doubleclick.net", "googlesyndication.com"]),
   ("Hotjar", ["hotjar.com", "static.hotjar.com"]),
   ("Mixpanel", ["mixpanel.com", "cdn.mxpnl.com"]),
   ("Segment", ["segment.com", "cdn.segment.com", "segment.io"]),
   ("Intercom", ["intercom.io", "widget.intercom.io", "js.intercomcdn.com"]),
   ("HubSpot", ["hubspot.com", "hs-scripts.com", "js.hs-analytics.net"]),
   ("Salesforce", ["salesforce.com", "pardot.com"]),
   ("LinkedIn Insight", ["snap.licdn.com", "px.ads.linkedin.com"]),
   ("Twitter/X Pixel", ["static.ads-twitter.com", "analytics.twitter.com"]),
   ("Pinterest Tag", ["ct.pinterest.com", "pintrk"]),
   ("TikTok Pixel", ["analytics.tiktok.com", "tiktok.com/i18n/pixel"]),
   ("Snapchat Pixel", ["sc-static.net", "tr.snapchat.com"]),
   ("Microsoft Clarity", ["clarity.ms", "c.clarity.ms"]),
   ("Amplitude", ["amplitude.com", "cdn.amplitude.com"]),
   ("Heap Analytics", ["heapanalytics.com", "cdn.heapanalytics.com"]),
   ("FullStory", ["fullstory.com", "rs.fullstory.com"]),
   ("Crazy Egg", ["crazyegg.com", "script.crazyegg.com"]),
   ("Mouseflow", ["mouseflow.com", "cdn.mouseflow.com"]),
   ("Lucky Orange", ["luckyorange.com", "tools.luckyorange.com"]),
   ("VWO", ["visualwebsiteoptimizer.com", "dev.visualwebsiteoptimizer.com"]),
   ("Optimizely", ["optimizely.com", "cdn.optimizely.com"]),
   ("Quantcast", ["quantserve.com", "pixel.quantserve.com"]),
   ("Adobe Analytics", ["omtrdc.net", "sc.omtrdc.net", "2o7.net"]),
   ("Matomo", ["matomo", "piwik"]),
   ("Plausible", ["plausible.io"]),
   ("Fathom", ["cdn.usefathom.com"]),
   ("OneTrust", ["onetrust.com", "cdn.cookielaw.org"]),
   ("Cookiebot", ["cookiebot.com", "consent.cookiebot.com"]),
   ("Termly", ["termly.io", "app.termly.io"]),
   ("Osano", ["osano.com", "cmp.osano.com"]),
   ("Usercentrics", ["usercentrics.eu", "app.usercentrics.eu"]),
   ("Didomi", ["didomi.io", "sdk.privacy-center.org"]),
   ("Sentry", ["sentry.io", "browser.sentry-cdn.com"])]

/-- One matching pattern's effect in `detect_tracking_scripts`: ensure the
tracker's key exists (empty evidence list on first detection), then append
the script's `src` when non-empty. -/
def bumpTracker (m : List (String × List String)) (nm src : String) :
    List (String × List String) :=
  let m1 := if m.any (fun p => p.1 == nm) then m else m ++ [(nm, [])]
  if src == "" then m1 else m1.map (fun p => if p.1 == nm then (p.1, p.2 ++ [src]) else p)

/-- The inner double loop of `detect_tracking_scripts` for one script. -/
def scanScript (m : List (String × List String)) (s : Script) :
    List (String × List String) :=
  trackers.foldl
    (fun m p =>
      p.2.foldl
        (fun m pat => if pyIn pat s.src || pyIn pat s.content then bumpTracker m p.1 s.src else m)
        m)
    m

/-- `ComplianceModel.detect_tracking_scripts`. -/
def detect_tracking_scripts (scripts : List Script) : TrackingScripts :=
  let dt := scripts.foldl scanScript []
  { detected_trackers := dt
    total_trackers := dt.length
    tracker_names := dt.map Prod.fst
    total_scripts := scripts.length }

/-- Keyword list of `get_privacy_policy`. -/
def privacyKeywords : List String :=
  ["privacy", "privacidad", "datenschutz", "confidentialité"]

/-- The de-duplication loop of `get_privacy_policy`: keep a link when its
resolved URL has not been seen. -/
def dedupLinks : List PPLink → List String → List PPLink
  | [], _ => []
  | l :: ls, seen =>
    if seen.contains l.url then dedupLinks ls seen
    else l :: dedupLinks ls (l.url :: seen)

/-- The matching predicate of `get_privacy_policy`: some keyword occurs in the
lower-cased visible text or in the lower-cased href. -/
def privacyMatch (a : Anchor) : Bool :=
  privacyKeywords.any (fun k => pyIn k (lowerStr a.text) || pyIn k (lowerStr a.href))

/-- `ComplianceModel.get_privacy_policy`; `resolve` models
`urljoin(self.url, href)`. -/
def get_privacy_policy (resolve : String → String) (anchors : List Anchor) :
    PrivacyPolicy :=
  let privacyLinks := (anchors.filter privacyMatch).map
    (fun a => ({ url := resolve a.href, text := pyStrip a.text } : PPLink))
  let uniq := dedupLinks privacyLinks []
  { found := !uniq.isEmpty
    links := uniq.take 3
    count := uniq.length }

/-- Keyword list of `detect_contact_information`. -/
def contactKeywords : List String := ["contact", "email", "phone", "address", "support"]

/-- `ComplianceModel.detect_contact_information`. -/
def detect_contact_information (doc : Document) : ContactInfo :=
  { detected := contactKeywords.any (fun k => pyIn k (lowerStr doc.text))
    emails_found := !(doc.textNodes.filter (fun t => !(t == "") && pyIn "@" t)).isEmpty }

/-- Outcome of `fetch_website`: either the parsed document (with the URL as
actually fetched, post any `www.` fallback) or the stored error message. -/
inductive FetchOutcome where
  | success (url : String) (doc : Document)
  | failure (msg : String)
deriving Repr, DecidableEq

/-- `ComplianceModel.run_all`; the network fetch is abstracted into the
`FetchOutcome` argument, `resolve` into `urljoin` against the fetched URL. -/
def run_all (resolve : String → String) : FetchOutcome → Results
  | .failure msg => { error := some msg }
  | .success url doc =>
    { cookie_banner := some (detect_cookie_banner doc)
      tracking_scripts := some (detect_tracking_scripts doc.scripts)
      privacy_policy := some (get_privacy_policy resolve doc.anchors)
      contact_info := some (detect_contact_information doc)
      url := some url
      scan_completed := some true }

/-- The fixed substitute installed by `run_scan` when AI analysis is requested
but no privacy policy is available. -/
def noPolicyAnalysis : PolicyAnalysis :=
  { error := some "No privacy policy found to analyze"
    gdpr_compliant := false
    ccpa_compliant := false }

/-- First check of `_calculate_compliance_summary`:
`self.results.get('cookie_banner', {}).get('detected')` is truthy. -/
def chkCookie (r : Results) : Bool :=
  match r.cookie_banner with | some cb => cb.detected | none => false

/-- Second check: `self.results.get('privacy_policy', {}).get('found')`. -/
def chkPrivacy (r : Results) : Bool :=
  match r.privacy_policy with | some pp => pp.found | none => false

/-- Third check: `self.results.get('contact_info', {}).get('detected')`. -/
def chkContact (r : Results) : Bool :=
  match r.contact_info with | some ci => ci.detected | none => false

/-- Fourth check: `policy_analysis.get('error')` is falsy and
`policy_analysis.get('gdpr_compliant') or policy_analysis.get('ccpa_compliant')`
is truthy (with `policy_analysis = self.results.get('policy_analysis', {})`). -/
def chkPolicy (r : Results) : Bool :=
  (!(match r.policy_analysis with | some pa => pyTruthyStr pa.error | none => false)) &&
  (match r.policy_analysis with | some pa => pa.gdpr_compliant || pa.ccpa_compliant | none => false)

/-- `ComplianceController._calculate_compliance_summary`. -/
def calcSummary (r : Results) : Summary :=
  let checks : Nat :=
    (cond (chkCookie r) 1 0) + (cond (chkPrivacy r) 1 0) +
    (cond (chkContact r) 1 0) + (cond (chkPolicy r) 1 0)
  let pct : ℚ := (checks : ℚ) / 4 * 100
  { checks_passed := checks
    total_checks := 4
    compliance_percentage := pct
    status := if pct ≥ 75 then "Good" else if pct ≥ 50 then "Fair" else "Needs Improvement"
    color := if pct ≥ 75 then "green" else if pct ≥ 50 then "orange" else "red" }

/-- The status band of `_calculate_compliance_summary` as a function of the
percentage. -/
def statusOf (p : ℚ) : String :=
  if p ≥ 75 then "Good" else if p ≥ 50 then "Fair" else "Needs Improvement"

/-- Ordinal rank of a status band (higher is better). -/
def statusRank (s : String) : Nat :=
  if s == "Good" then 2 else if s == "Fair" then 1 else 0

/-- `ComplianceController.run_scan`; the external analyzer and the
recommendation collaborator are passed in as `analyze` and `recs`. -/
def run_scan (resolve : String → String) (analyze : String → PolicyAnalysis)
    (recs : Recommendations) (includeAI : Bool) (fetch : FetchOutcome) : Results :=
  let r := run_all resolve fetch
  if r.error.isSome then r
  else
    let r1 :=
      if includeAI then
        let withPa :=
          if (match r.privacy_policy with
              | some pp => pp.found && !pp.links.isEmpty
              | none => false) then
            let polUrl := match r.privacy_policy with
              | some pp => ((pp.links.headD { url := "", text := "" }).url)
              | none => ""
            { r with policy_analysis := some (analyze polUrl) }
          else
            { r with policy_analysis := some noPolicyAnalysis }
        { withPa with recommendations := some recs }
      else r
    { r1 with compliance_summary := some (calcSummary r1) }

/-- The persistence guard in `app.py` (`tab_scan` handler): the result is
saved unless it carries an error and `results.get('scan_completed')` is
falsy. -/
def saved_by_app (r : Results) : Bool :=
  !(r.error.isSome && !(pyTruthy r.scan_completed))

/-- The `privacy_links` list built by `get_privacy_policy` before
de-duplication: one entry per matching anchor, href resolved, text
stripped. -/
def matchedLinks (resolve : String → String) (anchors : List Anchor) : List PPLink :=
  (anchors.filter privacyMatch).map
    (fun a => { url := resolve a.href, text := pyStrip a.text })

/-- First-match association lookup, modelling `detected_trackers[name]`. -/
def acbGet : List (String × List String) → String → Option (List String)
  | [], _ => none
  | p :: ps, nm => if p.1 == nm then some p.2 else acbGet ps nm

/-- Number of a tracker's patterns matching a given script (in `src` or in
the inline body). -/
def matchCount (pats : List String) (s : Script) : Nat :=
  (pats.filter (fun pat => pyIn pat s.src || pyIn pat s.content)).length

/-- Evidence entries one script contributes to one tracker's list:
its `src`, once per matching pattern, and only when `src` is non-empty. -/
def evidenceOf (pats : List String) (s : Script) : List String :=
  if s.src == "" then [] else List.replicate (matchCount pats s) s.src

/-- Spec-style binary-to-scalar category score: 100 for a satisfied signal,
0 otherwise. -/
def b2s (b : Bool) : ℚ := if b then 100 else 0

/-- A minimal document carrying one privacy-policy anchor and nothing else. -/
def docP : Document := { text := "", elements := [], scripts := [], anchors := [{ href := "/privacy", text := "Privacy" }], textNodes := [] }

/-- The empty document: no text, elements, scripts, anchors or text nodes. -/
def docEmpty : Document := { text := "", elements := [], scripts := [], anchors := [], textNodes := [] }

/-- Formalization of claim C2 as stated: there are fixed category weights
summing to 1 and a fixed lower trackers value such that, on every completed
scan, the summary's overall score is the weighted sum of the four category
scores (cookie_consent, privacy_policy, trackers, contact_info), the
trackers category scoring 100 exactly when zero trackers are detected. -/
def c2ClaimProp : Prop :=
  ∃ wc wp wt wci lowv : ℚ,
    wc + wp + wt + wci = 1 ∧ 0 ≤ lowv ∧ lowv < 100 ∧
    ∀ (resolve : String → String) (analyze : String → PolicyAnalysis)
      (recs : Recommendations) (ai : Bool) (url : String) (doc : Document)
      (s : Summary),
      (run_scan resolve analyze recs ai (.success url doc)).compliance_summary = some s →
      s.compliance_percentage =
        b2s (detect_cookie_banner doc).detected * wc
        + b2s (get_privacy_policy resolve doc.anchors).found * wp
        + (if (detect_tracking_scripts doc.scripts).total_trackers = 0 then (100 : ℚ) else lowv) * wt
        + b2s (detect_contact_information doc).detected * wci

/-! ## Helper lemmas -/

theorem strLeads_self_append (p u : List Char) : strLeads p (p ++ u) = true := by
  induction p with
  | nil => rfl
  | cons a as ih => simp [strLeads, ih]

theorem cond_le_one (b : Bool) : (cond b 1 0 : Nat) ≤ 1 := by
  cases b <;> simp

theorem calcSummary_checks (r : Results) :
    (calcSummary r).checks_passed =
      (cond (chkCookie r) 1 0) + (cond (chkPrivacy r) 1 0) +
      (cond (chkContact r) 1 0) + (cond (chkPolicy r) 1 0) := rfl

theorem calcSummary_pct (r : Results) :
    (calcSummary r).compliance_percentage = ((calcSummary r).checks_passed : ℚ) / 4 * 100 := rfl

theorem calcSummary_checks_le (r : Results) : (calcSummary r).checks_passed ≤ 4 := by
  rw [calcSummary_checks]
  have h1 := cond_le_one (chkCookie r)
  have h2 := cond_le_one (chkPrivacy r)
  have h3 := cond_le_one (chkContact r)
  have h4 := cond_le_one (chkPolicy r)
  omega

/-! ## C10 -/

/-- C10: the URL stored by the model always begins with `http://` or
`https://`: an input lacking either scheme prefix is normalized by
prepending `https://`, and an input already carrying a scheme is kept
unchanged. -/
theorem c10_url_normalization (url : String) :
    ((pyStarts (normalizeUrl url) "http://" || pyStarts (normalizeUrl url) "https://") = true)
    ∧ ((pyStarts url "http://" || pyStarts url "https://") = true → normalizeUrl url = url)
    ∧ ((pyStarts url "http://" || pyStarts url "https://") = false →
        normalizeUrl url = "https://" ++ url) := by
  have hstart : pyStarts ("https://" ++ url) "https://" = true := by
    unfold pyStarts
    rw [String.data_append]
    exact strLeads_self_append _ _
  refine ⟨?_, ?_, ?_⟩
  · unfold normalizeUrl
    by_cases h : (pyStarts url "http://" || pyStarts url "https://") = true
    · rw [if_pos h]
      exact h
    · rw [if_neg h]
      exact Bool.or_eq_true _ _ |>.mpr (Or.inr hstart)
  · intro h
    unfold normalizeUrl
    rw [if_pos h]
  · intro h
    unfold normalizeUrl
    rw [if_neg (by simp [h])]

/-- Witness for C10 at two concrete inputs. -/
theorem c10_url_normalization_witness :
    normalizeUrl "example.com" = "https://" ++ "example.com"
    ∧ normalizeUrl "http://x.com" = "http://x.com" :=
  ⟨(c10_url_normalization "example.com").2.2 (by decide),
   (c10_url_normalization "http://x.com").2.1 (by decide)⟩

/-! ## C4 -/

/-- C4: on a fetch failure the scan result is exactly the record holding the
error message (no classifier output, no summary, no `scan_completed`,
no policy analysis), `results.get('scan_completed')` is falsy, and the
`app.py` handler does not persist the result. -/
theorem c4_fetch_failure (resolve : String → String) (analyze : String → PolicyAnalysis)
    (recs : Recommendations) (includeAI : Bool) (msg : String) :
    run_scan resolve analyze recs includeAI (.failure msg) = { error := some msg }
    ∧ pyTruthy (run_scan resolve analyze recs includeAI (.failure msg)).scan_completed = false
    ∧ saved_by_app (run_scan resolve analyze recs includeAI (.failure msg)) = false :=
  ⟨rfl, rfl, rfl⟩

/-! ## C3 -/

/-- C3: for every results record the summary's overall score lies in
[0,100]; the status band is exactly `statusOf` applied to the score;
`statusOf` is a non-decreasing step function of the score; each band's
boundary is inclusive at its lower bound (75 maps to "Good", 50 to "Fair"),
and every score below 50 — with no lower bound — falls in the lowest
band, so no score is left unclassified. -/
theorem c3_score_bounds_status_monotone :
    (∀ r : Results, 0 ≤ (calcSummary r).compliance_percentage
        ∧ (calcSummary r).compliance_percentage ≤ 100)
    ∧ (∀ r : Results, (calcSummary r).status = statusOf (calcSummary r).compliance_percentage)
    ∧ (∀ p q : ℚ, p ≤ q → statusRank (statusOf p) ≤ statusRank (statusOf q))
    ∧ statusOf 75 = "Good" ∧ statusOf 50 = "Fair"
    ∧ (∀ p : ℚ, p < 50 → statusOf p = "Needs Improvement") := by
  refine ⟨fun r => ⟨?_, ?_⟩, fun r => rfl, fun p q hpq => ?_, by norm_num [statusOf],
    by norm_num [statusOf], fun p hp => ?_⟩
  · rw [calcSummary_pct]
    positivity
  · rw [calcSummary_pct]
    have h : ((calcSummary r).checks_passed : ℚ) ≤ 4 := by
      exact_mod_cast calcSummary_checks_le r
    linarith
  · unfold statusOf statusRank
    by_cases hp75 : p ≥ 75 <;> by_cases hq75 : q ≥ 75 <;>
      by_cases hp50 : p ≥ 50 <;> by_cases hq50 : q ≥ 50 <;>
      simp only [hp75, hq75, hp50, hq50, if_true, if_false] <;>
      first
        | decide
        | (exfalso; linarith)
  · unfold statusOf
    rw [if_neg (by linarith), if_neg (by linarith)]

/-- Witness for C3 at concrete scores. -/
theorem c3_witness :
    statusRank (statusOf 25) ≤ statusRank (statusOf 80)
    ∧ statusOf 10 = "Needs Improvement" :=
  ⟨c3_score_bounds_status_monotone.2.2.1 25 80 (by norm_num),
   c3_score_bounds_status_monotone.2.2.2.2.2 10 (by norm_num)⟩


theorem calcSummary_pct_eq (r : Results) :
    (calcSummary r).compliance_percentage = 25 * ((calcSummary r).checks_passed : ℚ) := by
  rw [calcSummary_pct]
  ring

theorem pct_of_checks (r : Results) (n : ℕ) (h : (calcSummary r).checks_passed = n) :
    (calcSummary r).compliance_percentage = 25 * (n : ℚ) := by
  rw [calcSummary_pct_eq, h]

/-! ## C1 -/

/-- C1 counterexample: two full scans of the same document (identical four
classifier signals) whose non-error policy analyses differ only in the
`gdpr_compliant` boolean produce different overall scores (50 vs 25), so
the AI compliance booleans do alter the summary's score. -/
theorem c1_counterexample :
    ((run_scan (fun s => s) (fun _ => ⟨none, true, false⟩) ⟨none⟩ true (.success "u" docP)).cookie_banner
       = (run_scan (fun s => s) (fun _ => ⟨none, false, false⟩) ⟨none⟩ true (.success "u" docP)).cookie_banner
     ∧ (run_scan (fun s => s) (fun _ => ⟨none, true, false⟩) ⟨none⟩ true (.success "u" docP)).tracking_scripts
       = (run_scan (fun s => s) (fun _ => ⟨none, false, false⟩) ⟨none⟩ true (.success "u" docP)).tracking_scripts
     ∧ (run_scan (fun s => s) (fun _ => ⟨none, true, false⟩) ⟨none⟩ true (.success "u" docP)).privacy_policy
       = (run_scan (fun s => s) (fun _ => ⟨none, false, false⟩) ⟨none⟩ true (.success "u" docP)).privacy_policy
     ∧ (run_scan (fun s => s) (fun _ => ⟨none, true, false⟩) ⟨none⟩ true (.success "u" docP)).contact_info
       = (run_scan (fun s => s) (fun _ => ⟨none, false, false⟩) ⟨none⟩ true (.success "u" docP)).contact_info)
    ∧ (run_scan (fun s => s) (fun _ => ⟨none, true, false⟩) ⟨none⟩ true (.success "u" docP)).compliance_summary.map
        Summary.compliance_percentage = some 50
    ∧ (run_scan (fun s => s) (fun _ => ⟨none, false, false⟩) ⟨none⟩ true (.success "u" docP)).compliance_summary.map
        Summary.compliance_percentage = some 25 := by
  refine ⟨⟨rfl, rfl, rfl, rfl⟩, ?_, ?_⟩
  · have e1 : (run_scan (fun s => s) (fun _ => ⟨none, true, false⟩) ⟨none⟩ true
        (.success "u" docP)).compliance_summary
        = some (calcSummary ⟨none, some ⟨false, [], 0⟩, some ⟨[], 0, [], 0⟩, some ⟨true, [⟨"/privacy", "Privacy"⟩], 1⟩, some ⟨false, false⟩, some "u", some true, some ⟨none, true, false⟩, some ⟨none⟩, none⟩) := rfl
    rw [e1, Option.map_some', pct_of_checks _ 2 (by decide)]
    norm_num
  · have e2 : (run_scan (fun s => s) (fun _ => ⟨none, false, false⟩) ⟨none⟩ true
        (.success "u" docP)).compliance_summary
        = some (calcSummary ⟨none, some ⟨false, [], 0⟩, some ⟨[], 0, [], 0⟩, some ⟨true, [⟨"/privacy", "Privacy"⟩], 1⟩, some ⟨false, false⟩, some "u", some true, some ⟨none, false, false⟩, some ⟨none⟩, none⟩) := rfl
    rw [e2, Option.map_some', pct_of_checks _ 1 (by decide)]
    norm_num

/-- C1 amended: when a PolicyAnalysis whose `error` is falsy is present, the
summary's overall score is the score without any policy analysis plus 25
exactly when `gdpr_compliant or ccpa_compliant` holds — the booleans DO
feed the score as the fourth check. -/
theorem c1_amended (r : Results) (pa : PolicyAnalysis)
    (he : pyTruthyStr pa.error = false) :
    (calcSummary { r with policy_analysis := some pa }).compliance_percentage =
      (calcSummary { r with policy_analysis := none }).compliance_percentage
        + (if pa.gdpr_compliant || pa.ccpa_compliant then (25 : ℚ) else 0) := by
  rw [calcSummary_pct, calcSummary_pct, calcSummary_checks, calcSummary_checks]
  have h1 : chkCookie { r with policy_analysis := some pa } = chkCookie r := rfl
  have h2 : chkPrivacy { r with policy_analysis := some pa } = chkPrivacy r := rfl
  have h3 : chkContact { r with policy_analysis := some pa } = chkContact r := rfl
  have h1n : chkCookie { r with policy_analysis := none } = chkCookie r := rfl
  have h2n : chkPrivacy { r with policy_analysis := none } = chkPrivacy r := rfl
  have h3n : chkContact { r with policy_analysis := none } = chkContact r := rfl
  have h4 : chkPolicy { r with policy_analysis := some pa }
      = (pa.gdpr_compliant || pa.ccpa_compliant) := by
    unfold chkPolicy
    dsimp only
    rw [he]
    simp
  have h4n : chkPolicy { r with policy_analysis := none } = false := rfl
  rw [h1, h2, h3, h4, h1n, h2n, h3n, h4n]
  generalize chkCookie r = a
  generalize chkPrivacy r = b
  generalize chkContact r = c
  cases a <;> cases b <;> cases c <;>
    cases hd : (pa.gdpr_compliant || pa.ccpa_compliant) <;>
    norm_num

/-- Witness for C1 amended at a concrete record and analysis. -/
theorem c1_amended_witness :
    (calcSummary { ({} : Results) with
        policy_analysis := some ⟨none, true, false⟩ }).compliance_percentage =
      (calcSummary { ({} : Results) with
          policy_analysis := none }).compliance_percentage
        + (if ((true : Bool) || false) then (25 : ℚ) else 0) :=
  c1_amended {} ⟨none, true, false⟩ rfl

/-! ## C2 -/

/-- C2 counterexample: the claim's weighted four-category reading of the
summary is false — two completed scans of the same document (hence
identical cookie, privacy, trackers and contact category inputs) have
different overall scores (50 vs 25) because the fourth check is the AI
policy analysis, not a trackers category. -/
theorem c2_counterexample : ¬ c2ClaimProp := by
  rintro ⟨wc, wp, wt, wci, lowv, hsum, hl0, hl100, h⟩
  have h1 := h (fun s => s) (fun _ => ⟨none, true, false⟩) ⟨none⟩ true "u" docP
    (calcSummary ⟨none, some ⟨false, [], 0⟩, some ⟨[], 0, [], 0⟩, some ⟨true, [⟨"/privacy", "Privacy"⟩], 1⟩, some ⟨false, false⟩, some "u", some true, some ⟨none, true, false⟩, some ⟨none⟩, none⟩) rfl
  have h2 := h (fun s => s) (fun _ => ⟨none, false, false⟩) ⟨none⟩ true "u" docP
    (calcSummary ⟨none, some ⟨false, [], 0⟩, some ⟨[], 0, [], 0⟩, some ⟨true, [⟨"/privacy", "Privacy"⟩], 1⟩, some ⟨false, false⟩, some "u", some true, some ⟨none, false, false⟩, some ⟨none⟩, none⟩) rfl
  rw [pct_of_checks _ 2 (by decide)] at h1
  rw [pct_of_checks _ 1 (by decide)] at h2
  have hq : (25 * (2 : ℚ) : ℚ) = 25 * (1 : ℚ) := h1.trans h2.symm
  norm_num at hq

/-- C2 amended: for every results record, the summary holds `total_checks =
4`, `checks_passed ≤ 4`, and an overall score equal to the equally-weighted
(weights 1/4 each, summing to 1) combination of the binary 0/100 scores of
the four checks actually used: cookie banner detected, privacy policy
found, contact info detected, and the non-error policy analysis reporting
GDPR or CCPA compliance.  The trackers signal contributes no category. -/
theorem c2_amended (r : Results) :
    (calcSummary r).total_checks = 4
    ∧ (calcSummary r).checks_passed ≤ 4
    ∧ ((1 : ℚ)/4 + 1/4 + 1/4 + 1/4 = 1)
    ∧ (calcSummary r).compliance_percentage =
        b2s (chkCookie r) * (1/4) + b2s (chkPrivacy r) * (1/4)
        + b2s (chkContact r) * (1/4) + b2s (chkPolicy r) * (1/4) := by
  refine ⟨rfl, calcSummary_checks_le r, by norm_num, ?_⟩
  rw [calcSummary_pct, calcSummary_checks]
  generalize chkCookie r = a
  generalize chkPrivacy r = b
  generalize chkContact r = c
  generalize chkPolicy r = d
  cases a <;> cases b <;> cases c <;> cases d <;> norm_num [b2s]

/-! ## C9 -/

/-- C9: when AI analysis is not requested, no `policy_analysis` entry is
present in the result, and any computed summary has `checks_passed ≤ 3`
and an overall score of at most 75. -/
theorem c9_no_ai_caps_score (resolve : String → String)
    (analyze : String → PolicyAnalysis) (recs : Recommendations)
    (fetch : FetchOutcome) :
    (run_scan resolve analyze recs false fetch).policy_analysis = none
    ∧ ∀ s : Summary,
        (run_scan resolve analyze recs false fetch).compliance_summary = some s →
        s.checks_passed ≤ 3 ∧ s.compliance_percentage ≤ 75 := by
  cases fetch with
  | failure msg => exact ⟨rfl, fun s h => by cases h⟩
  | success url doc =>
    refine ⟨rfl, fun s h => ?_⟩
    have hs : s = calcSummary (run_all resolve (.success url doc)) := by
      have h0 : some (calcSummary (run_all resolve (.success url doc))) = some s := h
      exact (Option.some.inj h0).symm
    subst hs
    have h4 : chkPolicy (run_all resolve (.success url doc)) = false := rfl
    have h1 := cond_le_one (chkCookie (run_all resolve (.success url doc)))
    have h2 := cond_le_one (chkPrivacy (run_all resolve (.success url doc)))
    have h3 := cond_le_one (chkContact (run_all resolve (.success url doc)))
    have hsum : (calcSummary (run_all resolve (.success url doc))).checks_passed ≤ 3 := by
      rw [calcSummary_checks, h4]
      simp only [cond_false]
      omega
    refine ⟨hsum, ?_⟩
    rw [calcSummary_pct_eq]
    have hq : ((calcSummary (run_all resolve (.success url doc))).checks_passed : ℚ) ≤ 3 := by
      exact_mod_cast hsum
    linarith

/-- Witness for C9 at a concrete scan. -/
theorem c9_witness :
    (run_scan (fun s => s) (fun _ => ⟨none, true, false⟩) ⟨none⟩ false (.success "u" docP)).policy_analysis = none
    ∧ (calcSummary ⟨none, some ⟨false, [], 0⟩, some ⟨[], 0, [], 0⟩, some ⟨true, [⟨"/privacy", "Privacy"⟩], 1⟩, some ⟨false, false⟩, some "u", some true, none, none, none⟩).checks_passed ≤ 3
    ∧ (calcSummary ⟨none, some ⟨false, [], 0⟩, some ⟨[], 0, [], 0⟩, some ⟨true, [⟨"/privacy", "Privacy"⟩], 1⟩, some ⟨false, false⟩, some "u", some true, none, none, none⟩).compliance_percentage ≤ 75 :=
  ⟨(c9_no_ai_caps_score (fun s => s) (fun _ => ⟨none, true, false⟩) ⟨none⟩ (.success "u" docP)).1,
   ((c9_no_ai_caps_score (fun s => s) (fun _ => ⟨none, true, false⟩) ⟨none⟩ (.success "u" docP)).2
      _ rfl).1,
   ((c9_no_ai_caps_score (fun s => s) (fun _ => ⟨none, true, false⟩) ⟨none⟩ (.success "u" docP)).2
      _ rfl).2⟩

/-! ## C6 -/

theorem run_scan_true_pa (resolve : String → String) (analyze : String → PolicyAnalysis)
    (recs : Recommendations) (url : String) (doc : Document) :
    (run_scan resolve analyze recs true (.success url doc)).policy_analysis =
      (if (get_privacy_policy resolve doc.anchors).found
          && !(get_privacy_policy resolve doc.anchors).links.isEmpty
       then some (analyze ((get_privacy_policy resolve doc.anchors).links.headD ⟨"", ""⟩).url)
       else some noPolicyAnalysis) := by
  unfold run_scan run_all
  dsimp only
  cases hc : ((get_privacy_policy resolve doc.anchors).found
      && !(get_privacy_policy resolve doc.anchors).links.isEmpty) with
  | true => simp [hc]
  | false => simp [hc]

theorem run_scan_true_indep (resolve : String → String)
    (analyze analyze2 : String → PolicyAnalysis) (recs : Recommendations)
    (url : String) (doc : Document)
    (h : ((get_privacy_policy resolve doc.anchors).found
      && !(get_privacy_policy resolve doc.anchors).links.isEmpty) = false) :
    run_scan resolve analyze recs true (.success url doc)
      = run_scan resolve analyze2 recs true (.success url doc) := by
  unfold run_scan run_all
  dsimp only
  simp [h]

/-- C6 counterexample: with AI analysis not requested, the "other case" of
the claim does not hold — no substitute PolicyAnalysis is installed at all,
the `policy_analysis` key is simply absent. -/
theorem c6_counterexample :
    (run_scan (fun s => s) (fun _ => noPolicyAnalysis) ⟨none⟩ false
        (.success "u" docEmpty)).policy_analysis = none
    ∧ (run_scan (fun s => s) (fun _ => noPolicyAnalysis) ⟨none⟩ false
        (.success "u" docEmpty)).policy_analysis ≠ some noPolicyAnalysis :=
  ⟨rfl, by decide⟩

/-- C6 amended: on a successful fetch, the external analyzer's judgment is
installed iff AI analysis is requested AND the privacy-policy signal has
`found` with at least one link (on the first link's URL); if AI analysis is
requested but that condition fails, the fixed "no policy" PolicyAnalysis
carrying a truthy error marker is substituted and the analyzer has no
influence on the result; if AI analysis is not requested, no
`policy_analysis` entry is present and the analyzer has no influence. -/
theorem c6_ai_gating (resolve : String → String) (analyze : String → PolicyAnalysis)
    (recs : Recommendations) (url : String) (doc : Document) :
    ((get_privacy_policy resolve doc.anchors).found = true
        ∧ (get_privacy_policy resolve doc.anchors).links ≠ [] →
      (run_scan resolve analyze recs true (.success url doc)).policy_analysis
        = some (analyze ((get_privacy_policy resolve doc.anchors).links.headD ⟨"", ""⟩).url))
    ∧ (¬((get_privacy_policy resolve doc.anchors).found = true
          ∧ (get_privacy_policy resolve doc.anchors).links ≠ []) →
      (run_scan resolve analyze recs true (.success url doc)).policy_analysis
          = some noPolicyAnalysis
        ∧ pyTruthyStr noPolicyAnalysis.error = true
        ∧ ∀ analyze2 : String → PolicyAnalysis,
            run_scan resolve analyze recs true (.success url doc)
              = run_scan resolve analyze2 recs true (.success url doc))
    ∧ (run_scan resolve analyze recs false (.success url doc)).policy_analysis = none
    ∧ (∀ analyze2 : String → PolicyAnalysis,
        run_scan resolve analyze recs false (.success url doc)
          = run_scan resolve analyze2 recs false (.success url doc)) := by
  have hb : ((get_privacy_policy resolve doc.anchors).found
      && !(get_privacy_policy resolve doc.anchors).links.isEmpty) = true
      ↔ ((get_privacy_policy resolve doc.anchors).found = true
        ∧ (get_privacy_policy resolve doc.anchors).links ≠ []) := by
    simp [Bool.and_eq_true, Bool.not_eq_true', List.isEmpty_eq_false]
  refine ⟨fun h => ?_, fun h => ?_, rfl, fun analyze2 => rfl⟩
  · rw [run_scan_true_pa, if_pos (hb.mpr h)]
  · have hfalse : ((get_privacy_policy resolve doc.anchors).found
        && !(get_privacy_policy resolve doc.anchors).links.isEmpty) = false := by
      cases hcb : ((get_privacy_policy resolve doc.anchors).found
          && !(get_privacy_policy resolve doc.anchors).links.isEmpty) with
      | true => exact absurd (hb.mp hcb) h
      | false => rfl
    refine ⟨?_, by decide, fun analyze2 =>
      run_scan_true_indep resolve analyze analyze2 recs url doc hfalse⟩
    rw [run_scan_true_pa, if_neg (fun hbt => h (hb.mp hbt))]

/-- Witness for C6 at concrete scans: the analyzer runs on the found policy
link, and is skipped when not requested. -/
theorem c6_ai_gating_witness :
    (run_scan (fun s => s) (fun _ => (⟨none, true, false⟩ : PolicyAnalysis)) ⟨none⟩ true
        (.success "u" docP)).policy_analysis = some ⟨none, true, false⟩
    ∧ (run_scan (fun s => s) (fun _ => (⟨none, true, false⟩ : PolicyAnalysis)) ⟨none⟩ true
        (.success "u" docEmpty)).policy_analysis = some noPolicyAnalysis :=
  ⟨(c6_ai_gating (fun s => s) (fun _ => ⟨none, true, false⟩) ⟨none⟩ "u" docP).1
      ⟨by decide, by decide⟩,
   ((c6_ai_gating (fun s => s) (fun _ => ⟨none, true, false⟩) ⟨none⟩ "u" docEmpty).2.1
      (by intro hcon; exact absurd hcon.1 (by decide))).1⟩

/-! ## C8 -/

theorem bannerElementPred (e : Element) :
    ((e.tag == "div" || e.tag == "section" || e.tag == "aside") &&
      (match e.cls with
       | none => false
       | some c => (!(c == "")) && bannerTerms.any (fun t => pyIn t (lowerStr c)))) = true
    ↔ ((e.tag = "div" ∨ e.tag = "section" ∨ e.tag = "aside")
        ∧ ∃ c, e.cls = some c ∧ ∃ t ∈ bannerTerms, pyIn t (lowerStr c) = true) := by
  obtain ⟨tag, cls⟩ := e
  cases cls with
  | none => simp
  | some c =>
    have hemp : ∀ t ∈ bannerTerms, pyIn t (lowerStr "") = false := by decide
    simp only [Bool.and_eq_true, Bool.or_eq_true, beq_iff_eq, Bool.not_eq_true',
      List.any_eq_true, Option.some.injEq, beq_eq_false_iff_ne]
    constructor
    · rintro ⟨htag, _hc, t, ht, hpt⟩
      exact ⟨or_assoc.mp htag, c, rfl, t, ht, hpt⟩
    · rintro ⟨htag, c2, hc2, t, ht, hpt⟩
      subst hc2
      refine ⟨or_assoc.mpr htag, ?_, t, ht, hpt⟩
      intro hceq
      subst hceq
      rw [hemp t ht] at hpt
      cases hpt

/-- C8: the cookie banner is detected iff some fixed keyword occurs in the
lower-cased page text, or some div/section/aside element's class attribute
contains (case-insensitively) one of the fixed banner terms; either side
alone suffices. -/
theorem c8_cookie_banner_iff (doc : Document) :
    (detect_cookie_banner doc).detected = true ↔
      (∃ k ∈ cookieKeywords, pyIn k (lowerStr doc.text) = true) ∨
      (∃ e ∈ doc.elements,
        (e.tag = "div" ∨ e.tag = "section" ∨ e.tag = "aside") ∧
        ∃ c, e.cls = some c ∧ ∃ t ∈ bannerTerms, pyIn t (lowerStr c) = true) := by
  unfold detect_cookie_banner
  dsimp only
  rw [Bool.or_eq_true, Bool.not_eq_true', Bool.not_eq_true',
    List.isEmpty_eq_false, List.isEmpty_eq_false, Ne, Ne,
    List.filter_eq_nil_iff, List.filter_eq_nil_iff]
  apply or_congr
  · simp only [not_forall, not_not, exists_prop]
  · simp only [not_forall, not_not, exists_prop]
    exact exists_congr fun e => and_congr_right fun _ => bannerElementPred e

/-- Witness for C8: a keyword alone suffices with zero banner elements, and
a banner element alone suffices with zero keywords. -/
theorem c8_cookie_banner_witness :
    (detect_cookie_banner ⟨"We use cookies.", [], [], [], []⟩).detected = true
    ∧ (detect_cookie_banner ⟨"hello", [⟨"div", some "Cookie-Consent"⟩], [], [], []⟩).detected = true :=
  ⟨(c8_cookie_banner_iff _).mpr (Or.inl ⟨"cookie", by decide, by decide⟩),
   (c8_cookie_banner_iff _).mpr (Or.inr ⟨⟨"div", some "Cookie-Consent"⟩, by decide,
      Or.inl rfl, "Cookie-Consent", rfl, "cookie", by decide, by decide⟩)⟩

theorem dedupLinks_sublist (xs : List PPLink) : ∀ seen : List String,
    List.Sublist (dedupLinks xs seen) xs := by
  induction xs with
  | nil => intro seen; simp [dedupLinks]
  | cons x rest ih =>
    intro seen
    simp only [dedupLinks]
    by_cases h : seen.contains x.url = true
    · rw [if_pos h]
      exact (ih seen).trans (List.sublist_cons_self x rest)
    · rw [if_neg h]
      exact (ih (x.url :: seen)).cons₂ x

theorem mem_dedupLinks (y : PPLink) (xs : List PPLink) : ∀ seen : List String,
    y ∈ dedupLinks xs seen ↔
      (y.url ∉ seen ∧ xs.find? (fun z => z.url == y.url) = some y) := by
  induction xs with
  | nil => intro seen; simp [dedupLinks]
  | cons x rest ih =>
    intro seen
    simp only [dedupLinks, List.find?_cons]
    by_cases h : seen.contains x.url = true
    · rw [if_pos h, ih seen]
      cases hx : (x.url == y.url) with
      | true =>
        simp only
        have hxy : x.url = y.url := eq_of_beq hx
        have hmem : y.url ∈ seen := hxy ▸ List.elem_iff.mp h
        constructor
        · rintro ⟨hn, _⟩; exact absurd hmem hn
        · rintro ⟨hn, _⟩; exact absurd hmem hn
      | false => simp only
    · rw [if_neg h]
      rw [List.mem_cons, ih (x.url :: seen)]
      cases hx : (x.url == y.url) with
      | true =>
        simp only
        have hxy : x.url = y.url := eq_of_beq hx
        constructor
        · rintro (rfl | ⟨hn, hf⟩)
          · exact ⟨fun hs => h (List.elem_iff.mpr hs), rfl⟩
          · exact absurd (by rw [← hxy]; exact List.mem_cons_self _ _) hn
        · rintro ⟨hn, hs⟩
          exact Or.inl (Option.some.inj hs).symm
      | false =>
        simp only
        have hxy : ¬(x.url = y.url) := fun he => by rw [he] at hx; simp at hx
        constructor
        · rintro (rfl | ⟨hn, hf⟩)
          · exact absurd rfl hxy
          · exact ⟨fun hm => hn (List.mem_cons_of_mem _ hm), hf⟩
        · rintro ⟨hn, hf⟩
          refine Or.inr ⟨?_, hf⟩
          intro hm
          rcases List.mem_cons.mp hm with he | hm2
          · exact hxy he.symm
          · exact hn hm2

theorem mem_map_url_dedup (u : String) (xs : List PPLink) : ∀ seen : List String,
    u ∈ (dedupLinks xs seen).map PPLink.url ↔
      (u ∈ xs.map PPLink.url ∧ u ∉ seen) := by
  induction xs with
  | nil => intro seen; simp [dedupLinks]
  | cons x rest ih =>
    intro seen
    simp only [dedupLinks, List.map_cons, List.mem_cons]
    by_cases h : seen.contains x.url = true
    · rw [if_pos h, ih seen]
      constructor
      · rintro ⟨hm, hn⟩; exact ⟨Or.inr hm, hn⟩
      · rintro ⟨he | hm, hn⟩
        · exact absurd (he ▸ List.elem_iff.mp h) hn
        · exact ⟨hm, hn⟩
    · rw [if_neg h]
      simp only [List.map_cons, List.mem_cons]
      rw [ih (x.url :: seen)]
      constructor
      · rintro (he | ⟨hm, hn⟩)
        · exact ⟨Or.inl he, he ▸ fun hs => h (List.elem_iff.mpr hs)⟩
        · exact ⟨Or.inr hm, fun hs => hn (List.mem_cons_of_mem _ hs)⟩
      · rintro ⟨he | hm, hn⟩
        · exact Or.inl he
        · by_cases hu : u = x.url
          · exact Or.inl hu
          · refine Or.inr ⟨hm, ?_⟩
            intro hmem
            rcases List.mem_cons.mp hmem with h1 | h2
            · exact hu h1
            · exact hn h2

theorem nodup_dedup_urls (xs : List PPLink) : ∀ seen : List String,
    ((dedupLinks xs seen).map PPLink.url).Nodup := by
  induction xs with
  | nil => intro seen; simp [dedupLinks]
  | cons x rest ih =>
    intro seen
    simp only [dedupLinks]
    by_cases h : seen.contains x.url = true
    · rw [if_pos h]; exact ih seen
    · rw [if_neg h]
      simp only [List.map_cons, List.nodup_cons]
      refine ⟨?_, ih (x.url :: seen)⟩
      intro hmem
      rw [mem_map_url_dedup] at hmem
      exact hmem.2 (List.mem_cons_self _ _)

theorem dedup_count (xs : List PPLink) :
    (dedupLinks xs []).length = ((xs.map PPLink.url).toFinset).card := by
  have h1 : ((dedupLinks xs []).map PPLink.url).Nodup := nodup_dedup_urls xs []
  have h2 : ((dedupLinks xs []).map PPLink.url).toFinset = (xs.map PPLink.url).toFinset := by
    ext u
    simp only [List.mem_toFinset]
    rw [mem_map_url_dedup]
    simp
  rw [← List.length_map (dedupLinks xs []) PPLink.url,
    ← List.toFinset_card_of_nodup h1, h2]

/-- C7: the privacy-policy extractor's `count` is the number of distinct
resolved URLs among the matched anchors (pre-truncation); `links` is the
first 3 of the de-duplicated list, which is an order-preserving sublist of
the matched list whose members are exactly the first-seen link per resolved
URL (so the first-seen display text wins) with no duplicate URLs; and the
matched list holds one entry per matching anchor with the display text
stripped of surrounding whitespace — an anchor matching on both text and
href still contributes exactly one entry. -/
theorem c7_privacy_dedup (resolve : String → String) (anchors : List Anchor) :
    (get_privacy_policy resolve anchors).count
        = ((matchedLinks resolve anchors).map PPLink.url).toFinset.card
    ∧ (get_privacy_policy resolve anchors).links
        = (dedupLinks (matchedLinks resolve anchors) []).take 3
    ∧ List.Sublist (dedupLinks (matchedLinks resolve anchors) []) (matchedLinks resolve anchors)
    ∧ (∀ y : PPLink, y ∈ dedupLinks (matchedLinks resolve anchors) [] ↔
        (matchedLinks resolve anchors).find? (fun z => z.url == y.url) = some y)
    ∧ ((dedupLinks (matchedLinks resolve anchors) []).map PPLink.url).Nodup
    ∧ matchedLinks resolve anchors
        = (anchors.filter privacyMatch).map (fun a => ⟨resolve a.href, pyStrip a.text⟩) := by
  refine ⟨dedup_count _, rfl, dedupLinks_sublist _ _, fun y => ?_, nodup_dedup_urls _ _, rfl⟩
  rw [mem_dedupLinks]
  simp

/-- Witness for C7: two anchors with the same resolved URL are counted
once, keeping the first-seen display text; a third anchor does not match. -/
theorem c7_privacy_dedup_witness :
    (get_privacy_policy (fun h => "https://x.com" ++ h)
        [⟨"/privacy", "Privacy Policy"⟩, ⟨"/privacy", " Our Privacy "⟩,
         ⟨"/about", "About"⟩]).count = 1
    ∧ (get_privacy_policy (fun h => "https://x.com" ++ h)
        [⟨"/privacy", "Privacy Policy"⟩, ⟨"/privacy", " Our Privacy "⟩,
         ⟨"/about", "About"⟩]).links = [⟨"https://x.com/privacy", "Privacy Policy"⟩] := by
  constructor
  · rw [(c7_privacy_dedup (fun h => "https://x.com" ++ h)
      [⟨"/privacy", "Privacy Policy"⟩, ⟨"/privacy", " Our Privacy "⟩, ⟨"/about", "About"⟩]).1]
    decide
  · rw [(c7_privacy_dedup (fun h => "https://x.com" ++ h)
      [⟨"/privacy", "Privacy Policy"⟩, ⟨"/privacy", " Our Privacy "⟩, ⟨"/about", "About"⟩]).2.1]
    decide

/-! ## C5 -/

theorem acbGet_none_iff (nm : String) : ∀ m : List (String × List String),
    acbGet m nm = none ↔ m.any (fun p => p.1 == nm) = false := by
  intro m
  induction m with
  | nil => simp [acbGet]
  | cons p ps ih =>
    simp only [acbGet, List.any_cons]
    cases hp : (p.1 == nm) with
    | true => simp
    | false => simpa using ih

theorem acbGet_append_self (nm : String) (v : List String) :
    ∀ m : List (String × List String), acbGet m nm = none →
    acbGet (m ++ [(nm, v)]) nm = some v := by
  intro m
  induction m with
  | nil =>
    intro _
    simp [acbGet]
  | cons p ps ih =>
    intro h
    simp only [acbGet, List.cons_append] at h ⊢
    cases hp : (p.1 == nm) with
    | true => rw [hp] at h; simp at h
    | false =>
      rw [hp] at h
      simp only [Bool.false_eq_true, if_false] at h ⊢
      exact ih h

theorem acbGet_append_other (nm nm' : String) (v : List String)
    (h : (nm == nm') = false) : ∀ m : List (String × List String),
    acbGet (m ++ [(nm, v)]) nm' = acbGet m nm' := by
  intro m
  induction m with
  | nil => simp [acbGet, h]
  | cons p ps ih =>
    simp only [acbGet, List.cons_append]
    cases hp : (p.1 == nm') with
    | true => simp
    | false => simpa using ih

theorem acbGet_map_append (nm src : String) : ∀ m : List (String × List String),
    acbGet (m.map (fun p => if p.1 == nm then (p.1, p.2 ++ [src]) else p)) nm
      = (acbGet m nm).map (fun l => l ++ [src]) := by
  intro m
  induction m with
  | nil => simp [acbGet]
  | cons p ps ih =>
    cases hp : (p.1 == nm) with
    | true =>
      simp only [List.map_cons, hp, if_true, acbGet]
      simp
    | false =>
      simp only [List.map_cons, hp, Bool.false_eq_true, if_false, acbGet]
      simpa using ih

theorem acbGet_map_other (nm nm' src : String) (h : (nm' == nm) = false) :
    ∀ m : List (String × List String),
    acbGet (m.map (fun p => if p.1 == nm then (p.1, p.2 ++ [src]) else p)) nm'
      = acbGet m nm' := by
  intro m
  induction m with
  | nil => simp [acbGet]
  | cons p ps ih =>
    cases hp : (p.1 == nm) with
    | true =>
      have hp' : (p.1 == nm') = false := by
        have h1 : p.1 = nm := beq_iff_eq.mp hp
        have h2 : nm' ≠ nm := beq_eq_false_iff_ne.mp h
        exact beq_eq_false_iff_ne.mpr (fun he => h2 (he ▸ h1))
      simp only [List.map_cons, hp, if_true, acbGet, hp', Bool.false_eq_true, if_false]
      exact ih
    | false =>
      simp only [List.map_cons, hp, Bool.false_eq_true, if_false, acbGet]
      cases hq : (p.1 == nm') with
      | true => simp
      | false => simpa using ih

theorem bump_get_self (m : List (String × List String)) (nm src : String) :
    acbGet (bumpTracker m nm src) nm
      = some ((acbGet m nm).getD [] ++ (if src == "" then [] else [src])) := by
  unfold bumpTracker
  have hm1 : acbGet (if m.any (fun p => p.1 == nm) then m else m ++ [(nm, [])]) nm
      = some ((acbGet m nm).getD []) := by
    by_cases hany : (m.any fun p => p.1 == nm) = true
    · rw [if_pos hany]
      cases ho : acbGet m nm with
      | none =>
        rw [(acbGet_none_iff nm m).mp ho] at hany
        cases hany
      | some l => simp [ho]
    · rw [if_neg hany]
      have hanyf : (m.any fun p => p.1 == nm) = false := by
        revert hany
        cases (m.any fun p => p.1 == nm) <;> simp
      have hnone : acbGet m nm = none := (acbGet_none_iff nm m).mpr hanyf
      rw [acbGet_append_self nm [] m hnone, hnone]
      rfl
  by_cases hsrc : (src == "") = true
  · rw [if_pos hsrc, if_pos hsrc, hm1]
    simp
  · rw [if_neg hsrc, if_neg hsrc]
    rw [acbGet_map_append, hm1]
    simp

theorem bump_get_other (m : List (String × List String)) (nm nm' src : String)
    (h : (nm' == nm) = false) :
    acbGet (bumpTracker m nm src) nm' = acbGet m nm' := by
  unfold bumpTracker
  have hsymm : (nm == nm') = false :=
    beq_eq_false_iff_ne.mpr (fun he => beq_eq_false_iff_ne.mp h he.symm)
  have hm1 : acbGet (if m.any (fun p => p.1 == nm) then m else m ++ [(nm, [])]) nm'
      = acbGet m nm' := by
    by_cases hany : (m.any fun p => p.1 == nm) = true
    · rw [if_pos hany]
    · rw [if_neg hany]
      exact acbGet_append_other nm nm' [] hsymm m
  by_cases hsrc : (src == "") = true
  · rw [if_pos hsrc, hm1]
  · rw [if_neg hsrc]
    rw [acbGet_map_other nm nm' src h, hm1]

theorem evidenceOf_nil_of_zero (pats : List String) (s : Script)
    (h : matchCount pats s = 0) : evidenceOf pats s = [] := by
  unfold evidenceOf
  rw [h]
  cases hsrc : (s.src == "") <;> simp

theorem fold_pats_get (s : Script) (nm : String) : ∀ (pats : List String)
    (m : List (String × List String)),
    acbGet (pats.foldl
        (fun m pat => if pyIn pat s.src || pyIn pat s.content then bumpTracker m nm s.src else m) m) nm
      = if matchCount pats s == 0 then acbGet m nm
        else some ((acbGet m nm).getD [] ++ evidenceOf pats s) := by
  intro pats
  induction pats with
  | nil =>
    intro m
    simp [matchCount]
  | cons pat rest ih =>
    intro m
    simp only [List.foldl_cons]
    by_cases hm : (pyIn pat s.src || pyIn pat s.content) = true
    · have hc : matchCount (pat :: rest) s = matchCount rest s + 1 := by
        unfold matchCount
        rw [List.filter_cons, if_pos hm]
        simp [Nat.add_comm]
      have h0 : (matchCount (pat :: rest) s == 0) = false := by
        rw [hc]
        simp
      rw [if_pos hm, ih (bumpTracker m nm s.src), bump_get_self, h0]
      simp only [Bool.false_eq_true, if_false]
      by_cases hcr : (matchCount rest s == 0) = true
      · have hcr0 : matchCount rest s = 0 := beq_iff_eq.mp hcr
        have hev : evidenceOf (pat :: rest) s = (if s.src == "" then [] else [s.src]) := by
          unfold evidenceOf
          rw [hc, hcr0]
          by_cases hsrc : (s.src == "") = true
          · rw [if_pos hsrc, if_pos hsrc]
          · rw [if_neg hsrc, if_neg hsrc]
            rfl
        rw [if_pos hcr, hev]
      · have hev : evidenceOf (pat :: rest) s
            = (if s.src == "" then [] else [s.src]) ++ evidenceOf rest s := by
          unfold evidenceOf
          rw [hc]
          by_cases hsrc : (s.src == "") = true
          · rw [if_pos hsrc, if_pos hsrc, if_pos hsrc]
            rfl
          · rw [if_neg hsrc, if_neg hsrc, if_neg hsrc]
            simp [List.replicate_succ]
        rw [if_neg hcr, hev]
        simp [List.append_assoc]
    · have hmf : (pyIn pat s.src || pyIn pat s.content) = false := by
        revert hm
        cases (pyIn pat s.src || pyIn pat s.content) <;> simp
      have hc : matchCount (pat :: rest) s = matchCount rest s := by
        unfold matchCount
        rw [List.filter_cons, if_neg hm]
      have he : evidenceOf (pat :: rest) s = evidenceOf rest s := by
        unfold evidenceOf
        rw [hc]
      rw [if_neg hm, ih m, hc, he]

theorem fold_pats_other (s : Script) (nm nm' : String) (h : (nm' == nm) = false) :
    ∀ (pats : List String) (m : List (String × List String)),
    acbGet (pats.foldl
        (fun m pat => if pyIn pat s.src || pyIn pat s.content then bumpTracker m nm s.src else m) m) nm'
      = acbGet m nm' := by
  intro pats
  induction pats with
  | nil => intro m; rfl
  | cons pat rest ih =>
    intro m
    simp only [List.foldl_cons]
    by_cases hm : (pyIn pat s.src || pyIn pat s.content) = true
    · rw [if_pos hm, ih (bumpTracker m nm s.src), bump_get_other m nm nm' s.src h]
    · rw [if_neg hm, ih m]

theorem trackers_names_nodup : (trackers.map Prod.fst).Nodup := by decide

theorem scanList_not_mem (s : Script) (nm' : String) :
    ∀ (tl : List (String × List String)) (m : List (String × List String)),
    (∀ q ∈ tl, (nm' == q.1) = false) →
    acbGet (tl.foldl
        (fun m p => p.2.foldl
          (fun m pat => if pyIn pat s.src || pyIn pat s.content then bumpTracker m p.1 s.src else m) m) m) nm'
      = acbGet m nm' := by
  intro tl
  induction tl with
  | nil => intro m _; rfl
  | cons q qs ih =>
    intro m hall
    simp only [List.foldl_cons]
    rw [ih _ (fun p hp => hall p (List.mem_cons_of_mem q hp))]
    exact fold_pats_other s q.1 nm' (hall q (List.mem_cons_self q qs)) q.2 m

theorem scanList_get (s : Script) (nm : String) (pats : List String) :
    ∀ (tl : List (String × List String)) (m : List (String × List String)),
    (tl.map Prod.fst).Nodup → (nm, pats) ∈ tl →
    acbGet (tl.foldl
        (fun m p => p.2.foldl
          (fun m pat => if pyIn pat s.src || pyIn pat s.content then bumpTracker m p.1 s.src else m) m) m) nm
      = if matchCount pats s == 0 then acbGet m nm
        else some ((acbGet m nm).getD [] ++ evidenceOf pats s) := by
  intro tl
  induction tl with
  | nil => intro m _ hmem; cases hmem
  | cons q qs ih =>
    intro m hnod hmem
    rw [List.map_cons, List.nodup_cons] at hnod
    simp only [List.foldl_cons]
    rcases List.mem_cons.mp hmem with heq | hmem2
    · have hq1 : q.1 = nm := by rw [← heq]
      have hq2 : q.2 = pats := by rw [← heq]
      have hqs : ∀ p ∈ qs, (nm == p.1) = false := by
        intro p hp
        refine beq_eq_false_iff_ne.mpr (fun he => ?_)
        apply hnod.1
        rw [hq1, he]
        exact List.mem_map_of_mem Prod.fst hp
      rw [scanList_not_mem s nm qs _ hqs, hq1, hq2]
      exact fold_pats_get s nm pats m
    · have hq1 : (nm == q.1) = false := by
        refine beq_eq_false_iff_ne.mpr (fun he => ?_)
        apply hnod.1
        rw [← he]
        exact List.mem_map_of_mem Prod.fst hmem2
      rw [ih _ hnod.2 hmem2, fold_pats_other s q.1 nm hq1 q.2 m]

theorem all_zero_flatMap_nil (pats : List String) :
    ∀ (scripts : List Script),
    scripts.all (fun s => matchCount pats s == 0) = true →
    scripts.flatMap (evidenceOf pats) = [] := by
  intro scripts
  induction scripts with
  | nil => intro _; rfl
  | cons s rest ih =>
    intro h
    rw [List.all_cons, Bool.and_eq_true] at h
    rw [List.flatMap_cons, ih h.2, evidenceOf_nil_of_zero pats s (beq_iff_eq.mp h.1)]
    rfl

theorem foldl_scripts_get (nm : String) (pats : List String)
    (hmem : (nm, pats) ∈ trackers) : ∀ (scripts : List Script)
    (m : List (String × List String)),
    acbGet (scripts.foldl scanScript m) nm =
      if scripts.all (fun s => matchCount pats s == 0) then acbGet m nm
      else some ((acbGet m nm).getD [] ++ scripts.flatMap (evidenceOf pats)) := by
  intro scripts
  induction scripts with
  | nil =>
    intro m
    simp
  | cons s rest ih =>
    intro m
    simp only [List.foldl_cons, List.all_cons, List.flatMap_cons]
    have hscan : acbGet (scanScript m s) nm
        = if matchCount pats s == 0 then acbGet m nm
          else some ((acbGet m nm).getD [] ++ evidenceOf pats s) :=
      scanList_get s nm pats trackers m trackers_names_nodup hmem
    by_cases hz : (matchCount pats s == 0) = true
    · rw [if_pos hz] at hscan
      have hev : evidenceOf pats s = [] := evidenceOf_nil_of_zero pats s (beq_iff_eq.mp hz)
      rw [ih (scanScript m s), hscan, hz, hev]
      simp
    · have hzf : (matchCount pats s == 0) = false := by
        revert hz
        cases (matchCount pats s == 0) <;> simp
      rw [if_neg hz] at hscan
      rw [ih (scanScript m s), hscan, hzf]
      by_cases hall : (rest.all fun s => matchCount pats s == 0) = true
      · rw [if_pos hall]
        rw [all_zero_flatMap_nil pats rest hall]
        simp
      · rw [if_neg hall, if_neg (by simp [hall])]
        simp [List.append_assoc]

theorem mem_keys_iff_acbGet (nm : String) : ∀ m : List (String × List String),
    nm ∈ m.map Prod.fst ↔ acbGet m nm ≠ none := by
  intro m
  induction m with
  | nil => simp [acbGet]
  | cons p ps ih =>
    simp only [List.map_cons, List.mem_cons, acbGet]
    by_cases hp : (p.1 == nm) = true
    · rw [if_pos hp]
      constructor
      · intro _
        simp
      · intro _
        exact Or.inl (eq_of_beq hp).symm
    · rw [if_neg hp]
      have hpf : p.1 ≠ nm := by
        intro he
        exact hp (by rw [he]; simp)
      constructor
      · rintro (he | hm)
        · exact absurd he.symm hpf
        · exact ih.mp hm
      · intro hne
        exact Or.inr (ih.mpr hne)

theorem matchCount_ne_zero_iff (pats : List String) (s : Script) :
    matchCount pats s ≠ 0 ↔
      ∃ pat ∈ pats, (pyIn pat s.src || pyIn pat s.content) = true := by
  unfold matchCount
  rw [Ne, List.length_eq_zero, List.filter_eq_nil_iff]
  push_neg
  simp

theorem not_all_zero_iff (pats : List String) (scripts : List Script) :
    (scripts.all fun s => matchCount pats s == 0) = false ↔
      ∃ s ∈ scripts, ∃ pat ∈ pats, (pyIn pat s.src || pyIn pat s.content) = true := by
  rw [Bool.eq_false_iff, Ne, List.all_eq_true]
  push_neg
  refine exists_congr fun s => and_congr_right fun _ => ?_
  rw [← matchCount_ne_zero_iff pats s]
  constructor
  · intro h
    exact fun he => h (by rw [he]; rfl)
  · intro h hbe
    exact h (beq_iff_eq.mp hbe)

/-- C5 amended: for every tracker in the taxonomy, the tracker is detected
iff some script matches one of its patterns in `src` or inline body, and its
evidence list is the concatenation, over the scripts in order, of the
script's `src` repeated once per matching pattern — only when `src` is
non-empty (an inline-only match detects the tracker but contributes no
evidence).  A `src` matching several patterns of the same tracker is
appended once per pattern, not exactly once. -/
theorem c5_tracker_evidence (scripts : List Script) (nm : String) (pats : List String)
    (hmem : (nm, pats) ∈ trackers) :
    acbGet (detect_tracking_scripts scripts).detected_trackers nm
      = (if scripts.all (fun s => matchCount pats s == 0) then none
         else some (scripts.flatMap (evidenceOf pats)))
    ∧ ((nm ∈ (detect_tracking_scripts scripts).tracker_names) ↔
        ∃ s ∈ scripts, ∃ pat ∈ pats, (pyIn pat s.src || pyIn pat s.content) = true) := by
  have h := foldl_scripts_get nm pats hmem scripts []
  have hnone : acbGet ([] : List (String × List String)) nm = none := rfl
  rw [hnone] at h
  constructor
  · show acbGet (scripts.foldl scanScript []) nm = _
    rw [h]
    by_cases hall : (scripts.all fun s => matchCount pats s == 0) = true
    · rw [if_pos hall, if_pos hall]
    · rw [if_neg hall, if_neg hall]
      simp
  · show nm ∈ (scripts.foldl scanScript []).map Prod.fst ↔ _
    rw [mem_keys_iff_acbGet, h]
    by_cases hall : (scripts.all fun s => matchCount pats s == 0) = true
    · rw [if_pos hall]
      constructor
      · intro hne
        exact absurd rfl hne
      · intro hex
        have hf := (not_all_zero_iff pats scripts).mpr hex
        rw [hall] at hf
        cases hf
    · have hf : (scripts.all fun s => matchCount pats s == 0) = false := by
        revert hall
        cases (scripts.all fun s => matchCount pats s == 0) <;> simp
      rw [if_neg hall]
      constructor
      · intro _
        exact (not_all_zero_iff pats scripts).mp hf
      · intro _
        simp

/-- C5 counterexample: one script whose `src` contains two Google Analytics
patterns (`google-analytics.com` and `ga.js`) gets its `src` appended twice
to the evidence list, refuting "exactly once". -/
theorem c5_counterexample :
    acbGet (detect_tracking_scripts [⟨"google-analytics.com/ga.js", ""⟩]).detected_trackers
        "Google Analytics"
      = some ["google-analytics.com/ga.js", "google-analytics.com/ga.js"] := by decide

/-- Witness for C5 at a single-pattern match. -/
theorem c5_tracker_evidence_witness :
    acbGet (detect_tracking_scripts [⟨"ga.js", ""⟩]).detected_trackers "Google Analytics"
      = some ["ga.js"]
    ∧ "Google Analytics" ∈ (detect_tracking_scripts [⟨"ga.js", ""⟩]).tracker_names := by
  have h := c5_tracker_evidence [⟨"ga.js", ""⟩] "Google Analytics"
    ["google-analytics.com", "googletagmanager.com", "ga.js", "analytics.js", "gtag/js"]
    (by decide)
  constructor
  · rw [h.1]
    decide
  · exact h.2.mpr ⟨⟨"ga.js", ""⟩, by decide, "ga.js", by decide, by decide⟩
